import Mathlib

/-
Verification of the KIO WorkerBase / WorkerSlaveBaseBridge layer
(src/core/workerbase.h, src/core/workerbase.cpp), shallowly embedded.

Conventions of the embedding:
  * C++ int becomes Int; QString becomes String; QByteArray becomes
    List UInt8.
  * `WorkerResult` is embedded field by field from workerbase.h.
  * Each bridge override of workerbase.cpp becomes one arm of
    `bridgeDispatch`; the notifications it emits (error, finished,
    connected, opened) are collected in order into a list of `Notif`.
  * Each default implementation of a WorkerBase virtual becomes a
    definition in namespace `WorkerBase`, parameterised by the protocol
    name; the URL and other arguments that the defaults ignore are
    dropped.
  * Facilities that live outside the embedded sources (the KIO error
    code enumeration, the command opcode enumeration, the SlaveBase
    helpers) are modelled from the specification; each such definition
    carries a doc comment starting with the words Modelled from the spec.
-/

namespace KIOSpec

/-- Error codes are C++ int values. -/
abbrev ErrCode := Int

/-- Modelled from the spec: the KIO error-code enumeration of
kio/global.h is not among the embedded sources. Only the facts the spec
states are used: 0 is the no-error sentinel and each named kind is a
fixed non-zero code, distinct from the other kinds. The concrete values
below are modelling choices. -/
def ERR_UNSUPPORTED_ACTION : ErrCode := 108

/-- Modelled from the spec: the Unknown error kind, non-zero. This is the
default code of WorkerResult::fail in workerbase.h. -/
def ERR_UNKNOWN : ErrCode := 126

/-- Modelled from the spec: the Already-Exists kind for files, non-zero. -/
def ERR_FILE_ALREADY_EXIST : ErrCode := 113

/-- Modelled from the spec: the Already-Exists kind for directories, non-zero. -/
def ERR_DIR_ALREADY_EXIST : ErrCode := 114

/-- Modelled from the spec: the User-Canceled kind, non-zero. -/
def ERR_USER_CANCELED : ErrCode := 121

/-- Modelled from the spec: the Communication-Failure kind returned when
the password server round trip fails, non-zero. -/
def ERR_PASSWD_SERVER : ErrCode := 122

/-- Embeds struct WorkerResult of workerbase.h: success flag, error code,
error message. -/
structure WorkerResult where
  success : Bool
  error : ErrCode
  errorString : String
  deriving DecidableEq, Repr

/-- Embeds WorkerResult::fail of workerbase.h: returns
WorkerResult{false, _error, _errorString}. The C++ arguments default to
ERR_UNKNOWN and the empty string; here both are always passed
explicitly. -/
def WorkerResult.fail (e : ErrCode) (s : String) : WorkerResult :=
  ⟨false, e, s⟩

/-- Embeds WorkerResult::pass of workerbase.h: returns
WorkerResult{true, 0, QString()}. -/
def WorkerResult.pass : WorkerResult :=
  ⟨true, 0, ""⟩

/-- The outward notifications the bridge can emit for one invocation:
error(code, msg), finished(), connected(), opened(). -/
inductive Notif where
  | errored (code : ErrCode) (msg : String)
  | finished
  | connected
  | opened
  deriving DecidableEq, Repr

/-- Embeds WorkerSlaveBaseBridge::finalize of workerbase.cpp: on failure
emit error(code, message) and return, otherwise emit finished. -/
def finalize (r : WorkerResult) : List Notif :=
  if r.success then [Notif.finished] else [Notif.errored r.error r.errorString]

/-- Embeds WorkerSlaveBaseBridge::maybeError of workerbase.cpp: on
failure emit error(code, message), otherwise emit nothing. -/
def maybeError (r : WorkerResult) : List Notif :=
  if r.success then [] else [Notif.errored r.error r.errorString]

/-- The command opcodes of the worker wire protocol (CMD_* of
commands_p.h), as an enumeration. -/
inductive Cmd where
  | CMD_CONNECT
  | CMD_GET
  | CMD_OPEN
  | CMD_READ
  | CMD_WRITE
  | CMD_SEEK
  | CMD_TRUNCATE
  | CMD_CLOSE
  | CMD_PUT
  | CMD_STAT
  | CMD_MIMETYPE
  | CMD_LISTDIR
  | CMD_MKDIR
  | CMD_RENAME
  | CMD_SYMLINK
  | CMD_CHMOD
  | CMD_CHOWN
  | CMD_SETMODIFICATIONTIME
  | CMD_COPY
  | CMD_DEL
  | CMD_SETLINKDEST
  | CMD_SPECIAL
  | CMD_MULTI_GET
  | CMD_SUBURL
  | CMD_FILESYSTEMFREESPACE
  deriving DecidableEq, Repr

/-- Modelled from the spec: the numeric values of the CMD_* opcodes live
in commands_p.h, which is not among the embedded sources. The spec only
requires a fixed enumeration of distinct opcodes, so distinct
consecutive values are assigned here. -/
def cmdCode : Cmd → Int
  | .CMD_CONNECT => 70
  | .CMD_GET => 71
  | .CMD_OPEN => 72
  | .CMD_READ => 73
  | .CMD_WRITE => 74
  | .CMD_SEEK => 75
  | .CMD_TRUNCATE => 76
  | .CMD_CLOSE => 77
  | .CMD_PUT => 78
  | .CMD_STAT => 79
  | .CMD_MIMETYPE => 80
  | .CMD_LISTDIR => 81
  | .CMD_MKDIR => 82
  | .CMD_RENAME => 83
  | .CMD_SYMLINK => 84
  | .CMD_CHMOD => 85
  | .CMD_CHOWN => 86
  | .CMD_SETMODIFICATIONTIME => 87
  | .CMD_COPY => 88
  | .CMD_DEL => 89
  | .CMD_SETLINKDEST => 90
  | .CMD_SPECIAL => 91
  | .CMD_MULTI_GET => 92
  | .CMD_SUBURL => 93
  | .CMD_FILESYSTEMFREESPACE => 94

/-- Modelled from the spec: KIO::unsupportedActionErrorString is not
among the embedded sources. The spec requires a deterministic message
naming both the protocol and the attempted opcode; it is modelled as a
fixed format string over the two. -/
def unsupportedActionErrorString (protocol : String) (cmd : Int) : String :=
  "The protocol " ++ protocol ++ " does not support the action " ++ toString cmd

/-- The Result-returning operations that WorkerSlaveBaseBridge overrides
directly (workerbase.cpp, lines 53 to 185). The open verb is spelled
open_ because open is a reserved word. truncate and fileSystemFreeSpace
are not here: the bridge reaches them through its virtual_hook
(`bridgeVirtualHook` below). -/
inductive BridgeVerb where
  | setSubUrl
  | openConnection
  | get
  | open_
  | read
  | write
  | seek
  | close
  | put
  | stat
  | mimetype
  | listDir
  | mkdir
  | rename
  | symlink
  | chmod
  | chown
  | setModificationTime
  | copy
  | del
  | setLinkDest
  | special
  | multiGet
  deriving DecidableEq, Repr

/-- Embeds the WorkerSlaveBaseBridge overrides of workerbase.cpp, one
arm per method, parameterised by the WorkerResult the fronting
WorkerBase handler returned for this invocation. Emitted notifications
are collected in order. -/
def bridgeDispatch (v : BridgeVerb) (r : WorkerResult) : List Notif :=
  match v with
  | .setSubUrl => finalize r
  | .openConnection =>
      if r.success then [Notif.connected] else [Notif.errored r.error r.errorString]
  | .get => finalize r
  | .open_ =>
      if r.success then [Notif.opened] else [Notif.errored r.error r.errorString]
  | .read => maybeError r
  | .write => maybeError r
  | .seek => maybeError r
  | .close => finalize r
  | .put => finalize r
  | .stat => finalize r
  | .mimetype => finalize r
  | .listDir => finalize r
  | .mkdir => finalize r
  | .rename => finalize r
  | .symlink => finalize r
  | .chmod => finalize r
  | .chown => finalize r
  | .setModificationTime => finalize r
  | .copy => finalize r
  | .del => finalize r
  | .setLinkDest => finalize r
  | .special => maybeError r
  | .multiGet => finalize r

/-- The full closed Result-returning worker operation surface, including
truncate and fileSystemFreeSpace which the bridge reaches through
virtual_hook. -/
inductive Verb where
  | openConnection
  | get
  | open_
  | read
  | write
  | seek
  | truncate
  | close
  | put
  | stat
  | mimetype
  | listDir
  | mkdir
  | rename
  | symlink
  | chmod
  | chown
  | setModificationTime
  | copy
  | del
  | setLinkDest
  | setSubUrl
  | special
  | multiGet
  | fileSystemFreeSpace
  deriving DecidableEq, Repr

/-- The opcode belonging to each verb of the surface, as the claims use
it (the attempted verb and its own opcode). -/
def cmdOf : Verb → Cmd
  | .openConnection => .CMD_CONNECT
  | .get => .CMD_GET
  | .open_ => .CMD_OPEN
  | .read => .CMD_READ
  | .write => .CMD_WRITE
  | .seek => .CMD_SEEK
  | .truncate => .CMD_TRUNCATE
  | .close => .CMD_CLOSE
  | .put => .CMD_PUT
  | .stat => .CMD_STAT
  | .mimetype => .CMD_MIMETYPE
  | .listDir => .CMD_LISTDIR
  | .mkdir => .CMD_MKDIR
  | .rename => .CMD_RENAME
  | .symlink => .CMD_SYMLINK
  | .chmod => .CMD_CHMOD
  | .chown => .CMD_CHOWN
  | .setModificationTime => .CMD_SETMODIFICATIONTIME
  | .copy => .CMD_COPY
  | .del => .CMD_DEL
  | .setLinkDest => .CMD_SETLINKDEST
  | .setSubUrl => .CMD_SUBURL
  | .special => .CMD_SPECIAL
  | .multiGet => .CMD_MULTI_GET
  | .fileSystemFreeSpace => .CMD_FILESYSTEMFREESPACE

namespace WorkerBase

/-- Embeds WorkerBase::openConnection of workerbase.cpp (default):
fail(ERR_UNSUPPORTED_ACTION, unsupportedActionErrorString(protocolName, CMD_CONNECT)). -/
def openConnection (p : String) : WorkerResult :=
  WorkerResult.fail ERR_UNSUPPORTED_ACTION (unsupportedActionErrorString p (cmdCode .CMD_CONNECT))

/-- Embeds WorkerBase::stat of workerbase.cpp (default); the URL
argument is ignored by the default and dropped. -/
def stat (p : String) : WorkerResult :=
  WorkerResult.fail ERR_UNSUPPORTED_ACTION (unsupportedActionErrorString p (cmdCode .CMD_STAT))

/-- Embeds WorkerBase::put of workerbase.cpp (default). -/
def put (p : String) : WorkerResult :=
  WorkerResult.fail ERR_UNSUPPORTED_ACTION (unsupportedActionErrorString p (cmdCode .CMD_PUT))

/-- Embeds WorkerBase::special of workerbase.cpp (default). -/
def special (p : String) : WorkerResult :=
  WorkerResult.fail ERR_UNSUPPORTED_ACTION (unsupportedActionErrorString p (cmdCode .CMD_SPECIAL))

/-- Embeds WorkerBase::listDir of workerbase.cpp (default). -/
def listDir (p : String) : WorkerResult :=
  WorkerResult.fail ERR_UNSUPPORTED_ACTION (unsupportedActionErrorString p (cmdCode .CMD_LISTDIR))

/-- Embeds WorkerBase::get of workerbase.cpp (default). -/
def get (p : String) : WorkerResult :=
  WorkerResult.fail ERR_UNSUPPORTED_ACTION (unsupportedActionErrorString p (cmdCode .CMD_GET))

/-- Embeds WorkerBase::open of workerbase.cpp (default). -/
def open_ (p : String) : WorkerResult :=
  WorkerResult.fail ERR_UNSUPPORTED_ACTION (unsupportedActionErrorString p (cmdCode .CMD_OPEN))

/-- Embeds WorkerBase::read of workerbase.cpp (default). -/
def read (p : String) : WorkerResult :=
  WorkerResult.fail ERR_UNSUPPORTED_ACTION (unsupportedActionErrorString p (cmdCode .CMD_READ))

/-- Embeds WorkerBase::write of workerbase.cpp (default). -/
def write (p : String) : WorkerResult :=
  WorkerResult.fail ERR_UNSUPPORTED_ACTION (unsupportedActionErrorString p (cmdCode .CMD_WRITE))

/-- Embeds WorkerBase::seek of workerbase.cpp (default). -/
def seek (p : String) : WorkerResult :=
  WorkerResult.fail ERR_UNSUPPORTED_ACTION (unsupportedActionErrorString p (cmdCode .CMD_SEEK))

/-- Embeds WorkerBase::truncate of workerbase.cpp (default). -/
def truncate (p : String) : WorkerResult :=
  WorkerResult.fail ERR_UNSUPPORTED_ACTION (unsupportedActionErrorString p (cmdCode .CMD_TRUNCATE))

/-- Embeds WorkerBase::close of workerbase.cpp (default). -/
def close (p : String) : WorkerResult :=
  WorkerResult.fail ERR_UNSUPPORTED_ACTION (unsupportedActionErrorString p (cmdCode .CMD_CLOSE))

/-- Embeds WorkerBase::mimetype of workerbase.cpp (default): return
get(url). -/
def mimetype (p : String) : WorkerResult :=
  get p

/-- Embeds WorkerBase::rename of workerbase.cpp (default). -/
def rename (p : String) : WorkerResult :=
  WorkerResult.fail ERR_UNSUPPORTED_ACTION (unsupportedActionErrorString p (cmdCode .CMD_RENAME))

/-- Embeds WorkerBase::symlink of workerbase.cpp (default). -/
def symlink (p : String) : WorkerResult :=
  WorkerResult.fail ERR_UNSUPPORTED_ACTION (unsupportedActionErrorString p (cmdCode .CMD_SYMLINK))

/-- Embeds WorkerBase::copy of workerbase.cpp (default). -/
def copy (p : String) : WorkerResult :=
  WorkerResult.fail ERR_UNSUPPORTED_ACTION (unsupportedActionErrorString p (cmdCode .CMD_COPY))

/-- Embeds WorkerBase::del of workerbase.cpp (default). -/
def del (p : String) : WorkerResult :=
  WorkerResult.fail ERR_UNSUPPORTED_ACTION (unsupportedActionErrorString p (cmdCode .CMD_DEL))

/-- Embeds WorkerBase::setLinkDest of workerbase.cpp (default). -/
def setLinkDest (p : String) : WorkerResult :=
  WorkerResult.fail ERR_UNSUPPORTED_ACTION (unsupportedActionErrorString p (cmdCode .CMD_SETLINKDEST))

/-- Embeds WorkerBase::mkdir of workerbase.cpp (default). -/
def mkdir (p : String) : WorkerResult :=
  WorkerResult.fail ERR_UNSUPPORTED_ACTION (unsupportedActionErrorString p (cmdCode .CMD_MKDIR))

/-- Embeds WorkerBase::chmod of workerbase.cpp (default). -/
def chmod (p : String) : WorkerResult :=
  WorkerResult.fail ERR_UNSUPPORTED_ACTION (unsupportedActionErrorString p (cmdCode .CMD_CHMOD))

/-- Embeds WorkerBase::setModificationTime of workerbase.cpp (default). -/
def setModificationTime (p : String) : WorkerResult :=
  WorkerResult.fail ERR_UNSUPPORTED_ACTION (unsupportedActionErrorString p (cmdCode .CMD_SETMODIFICATIONTIME))

/-- Embeds WorkerBase::chown of workerbase.cpp (default). -/
def chown (p : String) : WorkerResult :=
  WorkerResult.fail ERR_UNSUPPORTED_ACTION (unsupportedActionErrorString p (cmdCode .CMD_CHOWN))

/-- Embeds WorkerBase::setSubUrl of workerbase.cpp (default). -/
def setSubUrl (p : String) : WorkerResult :=
  WorkerResult.fail ERR_UNSUPPORTED_ACTION (unsupportedActionErrorString p (cmdCode .CMD_SUBURL))

/-- Embeds WorkerBase::multiGet of workerbase.cpp (default). -/
def multiGet (p : String) : WorkerResult :=
  WorkerResult.fail ERR_UNSUPPORTED_ACTION (unsupportedActionErrorString p (cmdCode .CMD_MULTI_GET))

/-- Embeds WorkerBase::fileSystemFreeSpace of workerbase.cpp (default). -/
def fileSystemFreeSpace (p : String) : WorkerResult :=
  WorkerResult.fail ERR_UNSUPPORTED_ACTION (unsupportedActionErrorString p (cmdCode .CMD_FILESYSTEMFREESPACE))

/-- Embeds WorkerBase::virtual_hook of workerbase.cpp (default): ignores
the data pointer and fails with ERR_UNSUPPORTED_ACTION naming the
protocol and the raw extension id. -/
def virtual_hook (p : String) (id : Int) : WorkerResult :=
  WorkerResult.fail ERR_UNSUPPORTED_ACTION (unsupportedActionErrorString p id)

end WorkerBase

/-- Dispatches a verb of the surface to its default (non-overridden)
WorkerBase implementation, as defined in workerbase.cpp. -/
def defaultResult (p : String) : Verb → WorkerResult
  | .openConnection => WorkerBase.openConnection p
  | .get => WorkerBase.get p
  | .open_ => WorkerBase.open_ p
  | .read => WorkerBase.read p
  | .write => WorkerBase.write p
  | .seek => WorkerBase.seek p
  | .truncate => WorkerBase.truncate p
  | .close => WorkerBase.close p
  | .put => WorkerBase.put p
  | .stat => WorkerBase.stat p
  | .mimetype => WorkerBase.mimetype p
  | .listDir => WorkerBase.listDir p
  | .mkdir => WorkerBase.mkdir p
  | .rename => WorkerBase.rename p
  | .symlink => WorkerBase.symlink p
  | .chmod => WorkerBase.chmod p
  | .chown => WorkerBase.chown p
  | .setModificationTime => WorkerBase.setModificationTime p
  | .copy => WorkerBase.copy p
  | .del => WorkerBase.del p
  | .setLinkDest => WorkerBase.setLinkDest p
  | .setSubUrl => WorkerBase.setSubUrl p
  | .special => WorkerBase.special p
  | .multiGet => WorkerBase.multiGet p
  | .fileSystemFreeSpace => WorkerBase.fileSystemFreeSpace p

/-- Modelled from the spec: the numeric value of the
SlaveBase::GetFileSystemFreeSpace extension id lives in slavebase.h,
which is not among the embedded sources; only distinctness from the
other ids matters here. -/
def GetFileSystemFreeSpaceId : Int := 1

/-- Modelled from the spec: the numeric value of the SlaveBase::Truncate
extension id; distinct from GetFileSystemFreeSpaceId. -/
def TruncateId : Int := 2

/-- Embeds WorkerSlaveBaseBridge::virtual_hook of workerbase.cpp. The
switch finalizes the fileSystemFreeSpace result and returns for the
free-space id; for the Truncate id it maybeErrors the truncate result
and falls through (break); in all non-returning paths it then
maybeErrors the result of the base virtual_hook. fsR, truncR and vhR
are the results the fronting handlers return for this invocation. -/
def bridgeVirtualHook (id : Int) (fsR truncR vhR : WorkerResult) : List Notif :=
  if id = GetFileSystemFreeSpaceId then
    finalize fsR
  else if id = TruncateId then
    maybeError truncR ++ maybeError vhR
  else
    maybeError vhR

/-- Modelled from the spec: the caller-side retry policy for rename and
copy lives in the job layer, which is not among the embedded sources.
Per the spec and the contracts in workerbase.h, a failing Result with
code Unsupported-Action instructs the caller to retry through the
composite fallback (copy plus delete for rename, get plus put for copy);
every other outcome does not. -/
def triggersCompositeFallback (r : WorkerResult) : Prop :=
  r.success = false ∧ r.error = ERR_UNSUPPORTED_ACTION

instance (r : WorkerResult) : Decidable (triggersCompositeFallback r) := by
  unfold triggersCompositeFallback
  infer_instance

/-- The fields of AuthInfo that the credential lookup is keyed by,
per the spec: url, realm, verifyPath-aware matching; username and the
found password travel along. -/
structure AuthInfo where
  url : String
  username : String
  password : String
  realmValue : String
  verifyPath : Bool
  deriving DecidableEq, Repr

/-- Modelled from the spec: the cached-credential match predicate of the
persistent store, keyed by url and realm; when verifyPath is not
requested the realm alone may qualify the url match. -/
def authMatches (stored request : AuthInfo) : Bool :=
  stored.url == request.url
    && (request.realmValue == "" || stored.realmValue == request.realmValue)
    && (!request.verifyPath || stored.verifyPath)

/-- Modelled from the spec: SlaveBase::checkCachedAuthentication (the
implementation is not among the embedded sources) performs a pure
lookup against the persistent credential store and never prompts. The
first component is whether a matching cached credential was found; the
second counts the user-facing prompts the call triggered. -/
def checkCachedAuthentication (store : List AuthInfo) (info : AuthInfo) :
    Bool × Nat :=
  (store.any fun e => authMatches e info, 0)

/-- The possible outcomes of the single password-dialog round trip. -/
inductive PasswordDialogAnswer where
  | answered (filled : AuthInfo)
  | canceled
  | communicationFailure
  deriving DecidableEq, Repr

/-- Modelled from the spec: SlaveBase::openPasswordDialogV2 (the
implementation is not among the embedded sources) performs exactly one
synchronous round trip to the application and maps its answer to
NoError (0) with the filled info, ERR_USER_CANCELED, or
ERR_PASSWD_SERVER. The components are the returned error code, the info
after the call, and the number of round trips performed. -/
def openPasswordDialog (info : AuthInfo) (answer : PasswordDialogAnswer) :
    ErrCode × AuthInfo × Nat :=
  match answer with
  | .answered filled => (0, filled, 1)
  | .canceled => (ERR_USER_CANCELED, info, 1)
  | .communicationFailure => (ERR_PASSWD_SERVER, info, 1)

/-- The outgoing MetaData buffer of the session. -/
structure MetaSession where
  outgoing : List (String × String)
  deriving DecidableEq, Repr

/-- Modelled from the spec: SlaveBase::setMetaData (the implementation
is not among the embedded sources) inserts the pair into the outgoing
buffer, replacing any previous value stored under the same key. -/
def setMetaData (key value : String) (s : MetaSession) : MetaSession :=
  ⟨(s.outgoing.filter fun kv => kv.1 != key) ++ [(key, value)]⟩

/-- Modelled from the spec: SlaveBase::sendMetaData (the implementation
is not among the embedded sources) flushes the accumulated outgoing
buffer to the application and clears it. The first component is what
was sent, the second the session afterwards. -/
def sendMetaData (s : MetaSession) : List (String × String) × MetaSession :=
  (s.outgoing, ⟨[]⟩)

/-- Modelled from the spec: SlaveBase::sendAndKeepMetaData flushes the
same buffer without clearing it. -/
def sendAndKeepMetaData (s : MetaSession) : List (String × String) × MetaSession :=
  (s.outgoing, s)

/-- Applies a sequence of setMetaData calls in order. -/
def setMetaDataSeq (pairs : List (String × String)) (s : MetaSession) : MetaSession :=
  pairs.foldl (fun acc kv => setMetaData kv.1 kv.2 acc) s

/-- The pending-timeout component of the session: at most one
{seconds, payload} pair. -/
structure TimeoutState where
  pending : Option (Int × List UInt8)
  deriving DecidableEq, Repr

/-- Modelled from the spec: SlaveBase::setTimeoutSpecialCommand (the
implementation is not among the embedded sources) arms a single pending
timeout; a negative value disarms any pending timeout; a non-negative
value replaces whatever was previously armed with the new pair. -/
def setTimeoutSpecialCommand (t : Int) (payload : List UInt8) (_s : TimeoutState) :
    TimeoutState :=
  if t < 0 then ⟨none⟩ else ⟨some (t, payload)⟩

/-- Modelled from the spec: on expiry while the dispatcher is blocked
awaiting the next command, a special command carrying the stored payload
is synthesized from the pending timeout; with no pending timeout none is
delivered. -/
def synthesizedSpecial (s : TimeoutState) : Option (List UInt8) :=
  s.pending.map fun tp => tp.2

/-- The bridge verbs translated with finalize (workerbase.cpp): exactly
one terminal notification, finished on success and error on failure. -/
def finalizeVerbs : List BridgeVerb :=
  [.setSubUrl, .get, .close, .put, .stat, .mimetype, .listDir, .mkdir,
   .rename, .symlink, .chmod, .chown, .setModificationTime, .copy, .del,
   .setLinkDest, .multiGet]

/-- The bridge verbs translated with maybeError (workerbase.cpp): error
on failure, nothing on success. -/
def maybeErrorVerbs : List BridgeVerb :=
  [.read, .write, .seek, .special]

/-- Cancelling a shared prefix of a String append. -/
theorem string_append_cancel_left (s t u : String) (h : s ++ t = s ++ u) : t = u := by
  have hd := congrArg String.data h
  simp [String.data_append] at hd
  exact String.ext hd

/-- C1, counterexample: the claim says every Result-returning verb emits
exactly one terminal notification, finished when the Result succeeds. At
the concrete input read with a passing Result the bridge emits no
notification at all (WorkerSlaveBaseBridge::read uses maybeError), so a
finished notification is not emitted and the invocation ends with
neither terminal notification. -/
theorem c1_read_success_emits_nothing :
    bridgeDispatch BridgeVerb.read WorkerResult.pass = [] ∧
      bridgeDispatch BridgeVerb.read WorkerResult.pass ≠ [Notif.finished] := by
  exact ⟨rfl, by decide⟩

/-- C1, amended: the bridge emits at most one terminal notification per
invocation of a directly bridged Result-returning verb and never both
finished and error; on failure it always emits exactly one error
notification carrying the code and the message of the Result; on
success the finalize-bridged verbs emit exactly one finished
notification, openConnection emits connected, open emits opened, and
read, write, seek and special emit nothing; the truncate leg of the
bridge virtual_hook likewise contributes an error notification exactly
when the truncate Result fails and nothing when it succeeds. -/
theorem c1_bridge_terminal_discipline (v : BridgeVerb) (r : WorkerResult) :
    (r.success = false → bridgeDispatch v r = [Notif.errored r.error r.errorString]) ∧
    (r.success = true → v ∈ finalizeVerbs → bridgeDispatch v r = [Notif.finished]) ∧
    (r.success = true → v ∈ maybeErrorVerbs → bridgeDispatch v r = []) ∧
    (r.success = true → bridgeDispatch BridgeVerb.openConnection r = [Notif.connected]) ∧
    (r.success = true → bridgeDispatch BridgeVerb.open_ r = [Notif.opened]) ∧
    (bridgeDispatch v r).length ≤ 1 ∧
    (¬ (Notif.finished ∈ bridgeDispatch v r ∧
        Notif.errored r.error r.errorString ∈ bridgeDispatch v r)) ∧
    (∀ fsR vhR : WorkerResult,
      bridgeVirtualHook TruncateId fsR r vhR = maybeError r ++ maybeError vhR) := by
  obtain ⟨s, e, m⟩ := r
  cases s <;> cases v <;>
    simp [bridgeDispatch, finalize, maybeError, finalizeVerbs, maybeErrorVerbs,
      bridgeVirtualHook, GetFileSystemFreeSpaceId, TruncateId]

/-- C1, witness for the amended theorem: at the verb get and a concrete
failing Result the bridge emits exactly the error notification. -/
theorem c1_bridge_terminal_discipline_witness :
    bridgeDispatch BridgeVerb.get (WorkerResult.fail 1 "m") = [Notif.errored 1 "m"] :=
  (c1_bridge_terminal_discipline BridgeVerb.get (WorkerResult.fail 1 "m")).1 rfl

/-- C2, counterexample: the claim says every non-overridden operation,
mimetype included, fails with a message naming the attempted verb's own
opcode. The default mimetype forwards to get (workerbase.cpp), so at the
concrete protocol name worker its message names CMD_GET and differs from
the message naming CMD_MIMETYPE the claim requires. -/
theorem c2_default_mimetype_names_get_opcode :
    defaultResult "worker" Verb.mimetype ≠
        WorkerResult.fail ERR_UNSUPPORTED_ACTION
          (unsupportedActionErrorString "worker" (cmdCode (cmdOf Verb.mimetype))) ∧
      defaultResult "worker" Verb.mimetype =
        WorkerResult.fail ERR_UNSUPPORTED_ACTION
          (unsupportedActionErrorString "worker" (cmdCode Cmd.CMD_GET)) := by
  exact ⟨by decide, rfl⟩

/-- C2, amended: every non-overridden operation of the closed surface
except mimetype returns a failing Result with code
ERR_UNSUPPORTED_ACTION and the deterministic message naming the
protocol name and the attempted verb's opcode; the non-overridden
mimetype instead returns exactly the default get Result, whose message
names the GET opcode. -/
theorem c2_default_surface_unsupported (p : String) (v : Verb) :
    (v ≠ Verb.mimetype →
      defaultResult p v =
        WorkerResult.fail ERR_UNSUPPORTED_ACTION
          (unsupportedActionErrorString p (cmdCode (cmdOf v)))) ∧
    defaultResult p Verb.mimetype = WorkerBase.get p ∧
    WorkerBase.get p =
      WorkerResult.fail ERR_UNSUPPORTED_ACTION
        (unsupportedActionErrorString p (cmdCode Cmd.CMD_GET)) := by
  refine ⟨fun h => ?_, rfl, rfl⟩
  cases v <;> first
    | rfl
    | exact absurd rfl h

/-- C2, witness for the amended theorem: the non-overridden stat at the
concrete protocol name worker. -/
theorem c2_default_surface_unsupported_witness :
    defaultResult "worker" Verb.stat =
      WorkerResult.fail ERR_UNSUPPORTED_ACTION
        (unsupportedActionErrorString "worker" (cmdCode (cmdOf Verb.stat))) :=
  (c2_default_surface_unsupported "worker" Verb.stat).1 (by decide)

/-- C3, counterexample: the claim says fail(code, msg) always carries a
non-sentinel (non-zero) error code. At the concrete argument pair
(0, x) the constructed Result has success false together with the
sentinel code 0, a state the claim calls unreachable. -/
theorem c3_fail_zero_keeps_sentinel :
    (WorkerResult.fail 0 "x").success = false ∧
      (WorkerResult.fail 0 "x").error = 0 :=
  ⟨rfl, rfl⟩

/-- C3, amended: pass() has success true and the sentinel code 0;
fail(code, msg) has success false and carries exactly the given code,
which is non-sentinel whenever the caller passes a non-zero code, in
particular for the C++ default argument ERR_UNKNOWN; success true
together with a non-sentinel code is unreachable through the two
constructors. -/
theorem c3_result_constructors (code : ErrCode) (msg : String) :
    WorkerResult.pass.success = true ∧
    WorkerResult.pass.error = 0 ∧
    (WorkerResult.fail code msg).success = false ∧
    (WorkerResult.fail code msg).error = code ∧
    (code ≠ 0 → (WorkerResult.fail code msg).error ≠ 0) ∧
    ERR_UNKNOWN ≠ 0 := by
  refine ⟨rfl, rfl, rfl, rfl, fun h => h, by decide⟩

/-- C3, witness for the amended theorem: a concrete non-zero code stays
non-sentinel. -/
theorem c3_result_constructors_witness :
    (WorkerResult.fail 5 "m").error ≠ 0 :=
  ((c3_result_constructors 5 "m").2.2.2.2.1 (by decide))

/-- C4: checkCachedAuthentication is a pure lookup that triggers no
user-facing prompt and returns whether a matching cached credential was
found; openPasswordDialog performs exactly one synchronous round trip
per call and returns one of NoError (0), ERR_USER_CANCELED or
ERR_PASSWD_SERVER, never another code. -/
theorem c4_auth_calls (store : List AuthInfo) (info : AuthInfo)
    (answer : PasswordDialogAnswer) :
    (checkCachedAuthentication store info).2 = 0 ∧
    ((checkCachedAuthentication store info).1 = true ↔
      ∃ e ∈ store, authMatches e info = true) ∧
    (openPasswordDialog info answer).2.2 = 1 ∧
    ((openPasswordDialog info answer).1 = 0 ∨
     (openPasswordDialog info answer).1 = ERR_USER_CANCELED ∨
     (openPasswordDialog info answer).1 = ERR_PASSWD_SERVER) := by
  refine ⟨rfl, ?_, ?_, ?_⟩
  · simp [checkCachedAuthentication, List.any_eq_true]
  · cases answer <;> rfl
  · cases answer <;> simp [openPasswordDialog]

/-- C5: a failing rename or copy Result with code Unsupported-Action is
the negotiation signal that triggers the composite fallback, a failing
Result with code Already-Exists never does, and the default rename and
copy implementations return exactly the Unsupported-Action signal. -/
theorem c5_fallback_negotiation (p m : String) :
    triggersCompositeFallback (WorkerBase.rename p) ∧
    triggersCompositeFallback (WorkerBase.copy p) ∧
    WorkerBase.rename p =
      WorkerResult.fail ERR_UNSUPPORTED_ACTION
        (unsupportedActionErrorString p (cmdCode Cmd.CMD_RENAME)) ∧
    WorkerBase.copy p =
      WorkerResult.fail ERR_UNSUPPORTED_ACTION
        (unsupportedActionErrorString p (cmdCode Cmd.CMD_COPY)) ∧
    ¬ triggersCompositeFallback (WorkerResult.fail ERR_FILE_ALREADY_EXIST m) ∧
    ¬ triggersCompositeFallback (WorkerResult.fail ERR_DIR_ALREADY_EXIST m) := by
  refine ⟨⟨rfl, rfl⟩, ⟨rfl, rfl⟩, rfl, rfl, fun h => ?_, fun h => ?_⟩ <;>
    simp [triggersCompositeFallback, WorkerResult.fail,
      ERR_FILE_ALREADY_EXIST, ERR_DIR_ALREADY_EXIST, ERR_UNSUPPORTED_ACTION] at h

/-- C5, witness: the default rename at a concrete protocol name triggers
the composite fallback. -/
theorem c5_fallback_negotiation_witness :
    triggersCompositeFallback (WorkerBase.rename "worker") :=
  (c5_fallback_negotiation "worker" "m").1

/-- C6: for every extension id outside the defined set (the free-space
id and the truncate id), the default virtual_hook fails with code
ERR_UNSUPPORTED_ACTION and the bridge turns that Result into exactly one
error notification. -/
theorem c6_unknown_hook_id_unsupported (p : String) (id : Int)
    (fsR truncR : WorkerResult) :
    id ≠ GetFileSystemFreeSpaceId → id ≠ TruncateId →
    (WorkerBase.virtual_hook p id).success = false ∧
    (WorkerBase.virtual_hook p id).error = ERR_UNSUPPORTED_ACTION ∧
    bridgeVirtualHook id fsR truncR (WorkerBase.virtual_hook p id) =
      [Notif.errored ERR_UNSUPPORTED_ACTION (unsupportedActionErrorString p id)] := by
  intro h1 h2
  refine ⟨rfl, rfl, ?_⟩
  simp [bridgeVirtualHook, h1, h2, maybeError, WorkerBase.virtual_hook,
    WorkerResult.fail]

/-- C6, witness: at the concrete unknown id 5 the bridge emits the
Unsupported-Action error notification. -/
theorem c6_unknown_hook_id_unsupported_witness :
    bridgeVirtualHook 5 WorkerResult.pass WorkerResult.pass
        (WorkerBase.virtual_hook "worker" 5) =
      [Notif.errored ERR_UNSUPPORTED_ACTION
        (unsupportedActionErrorString "worker" 5)] :=
  (c6_unknown_hook_id_unsupported "worker" 5 WorkerResult.pass WorkerResult.pass
    (by decide) (by decide)).2.2

/-- C7: after any sequence of setMetaData calls, sendMetaData flushes
the accumulated outgoing buffer and leaves it empty, so an immediately
following flush sends nothing, while sendAndKeepMetaData flushes the
same buffer without clearing it, so an immediately following flush sends
exactly the same pairs again. -/
theorem c7_metadata_flush (pairs : List (String × String)) (s0 : MetaSession) :
    (sendMetaData (setMetaDataSeq pairs s0)).1 = (setMetaDataSeq pairs s0).outgoing ∧
    (sendMetaData (sendMetaData (setMetaDataSeq pairs s0)).2).1 = [] ∧
    (sendAndKeepMetaData (sendAndKeepMetaData (setMetaDataSeq pairs s0)).2).1 =
      (sendAndKeepMetaData (setMetaDataSeq pairs s0)).1 :=
  ⟨rfl, rfl, rfl⟩

/-- C8: the session holds at most one pending timeout; arming with a
non-negative value replaces whatever was pending with the new pair,
arming with a negative value leaves no pending timeout, every call
replaces the previous state outright, and after a negative arming no
special command is synthesized from a previously armed timer. -/
theorem c8_timeout_single_pending (s : TimeoutState) (t t2 : Int)
    (p p2 : List UInt8) :
    (0 ≤ t → setTimeoutSpecialCommand t p s = ⟨some (t, p)⟩) ∧
    (t < 0 → setTimeoutSpecialCommand t p s = ⟨none⟩) ∧
    setTimeoutSpecialCommand t2 p2 (setTimeoutSpecialCommand t p s) =
      setTimeoutSpecialCommand t2 p2 s ∧
    synthesizedSpecial
        (setTimeoutSpecialCommand (-1) p2 (setTimeoutSpecialCommand t p s)) =
      none := by
  refine ⟨fun h => ?_, fun h => ?_, rfl, ?_⟩
  · simp [setTimeoutSpecialCommand, not_lt.2 h]
  · simp [setTimeoutSpecialCommand, h]
  · simp [setTimeoutSpecialCommand, synthesizedSpecial]

/-- C8, witness: arming 3 seconds then arming -1 leaves nothing to
synthesize. -/
theorem c8_timeout_single_pending_witness :
    synthesizedSpecial
        (setTimeoutSpecialCommand (-1) []
          (setTimeoutSpecialCommand 3 [7] ⟨none⟩)) =
      none :=
  (c8_timeout_single_pending ⟨none⟩ 3 (-1) [7] []).2.2.2

/-- C9: dispatching the Truncate extension id through the bridge
virtual_hook reports the truncate handler error, if any, and then
additionally runs the base virtual_hook leg, whose default returns an
Unsupported-Action failure; with a worker that does not override
virtual_hook, an Unsupported-Action error notification is emitted even
when truncate itself succeeded. -/
theorem c9_truncate_hook_falls_through (p : String) (fsR truncR : WorkerResult) :
    bridgeVirtualHook TruncateId fsR truncR (WorkerBase.virtual_hook p TruncateId) =
      maybeError truncR ++
        [Notif.errored ERR_UNSUPPORTED_ACTION
          (unsupportedActionErrorString p TruncateId)] ∧
    (truncR.success = true →
      bridgeVirtualHook TruncateId fsR truncR
          (WorkerBase.virtual_hook p TruncateId) =
        [Notif.errored ERR_UNSUPPORTED_ACTION
          (unsupportedActionErrorString p TruncateId)]) := by
  constructor
  · simp [bridgeVirtualHook, TruncateId, GetFileSystemFreeSpaceId,
      WorkerBase.virtual_hook, WorkerResult.fail, maybeError]
  · intro h
    simp [bridgeVirtualHook, TruncateId, GetFileSystemFreeSpaceId,
      WorkerBase.virtual_hook, WorkerResult.fail, maybeError, h]

/-- C9, witness: with a succeeding truncate handler the bridge still
emits the Unsupported-Action error of the default virtual_hook. -/
theorem c9_truncate_hook_falls_through_witness :
    bridgeVirtualHook TruncateId WorkerResult.pass WorkerResult.pass
        (WorkerBase.virtual_hook "worker" TruncateId) =
      [Notif.errored ERR_UNSUPPORTED_ACTION
        (unsupportedActionErrorString "worker" TruncateId)] :=
  (c9_truncate_hook_falls_through "worker" WorkerResult.pass WorkerResult.pass).2 rfl

/-- C10: for every protocol name, the default mimetype returns exactly
the Result of the default get, so on a worker overriding neither it
fails with the Unsupported-Action message naming the GET opcode, which
differs from the message naming the MIMETYPE opcode. -/
theorem c10_default_mimetype_is_get (p : String) :
    WorkerBase.mimetype p = WorkerBase.get p ∧
    WorkerBase.mimetype p =
      WorkerResult.fail ERR_UNSUPPORTED_ACTION
        (unsupportedActionErrorString p (cmdCode Cmd.CMD_GET)) ∧
    unsupportedActionErrorString p (cmdCode Cmd.CMD_GET) ≠
      unsupportedActionErrorString p (cmdCode Cmd.CMD_MIMETYPE) := by
  refine ⟨rfl, rfl, fun h => ?_⟩
  simp only [unsupportedActionErrorString, cmdCode] at h
  have h2 := string_append_cancel_left
    ("The protocol " ++ p ++ " does not support the action ") _ _
    (by simpa [String.append_assoc] using h)
  exact absurd h2 (by decide)

/-- C10, witness: the two messages differ at a concrete protocol name. -/
theorem c10_default_mimetype_is_get_witness :
    unsupportedActionErrorString "worker" (cmdCode Cmd.CMD_GET) ≠
      unsupportedActionErrorString "worker" (cmdCode Cmd.CMD_MIMETYPE) :=
  (c10_default_mimetype_is_get "worker").2.2

end KIOSpec
